import Mathlib

/-!
Shallow embedding of the stonkwise signal engine
(`stonkwise/market_structure.py`, `stonkwise/patterns.py`,
`stonkwise/strategies/price_action.py`) over exact rationals,
together with theorems settling the specification claims.

Python float arithmetic is modelled by `ℚ` (all the formulas involved
are field operations and comparisons); `numpy` array slices become
`List` operations; the mutable detector state (`swing_highs`,
`swing_lows`, `current_trend`) is passed explicitly.  Source names for the body/wick proportions are rendered with the
suffix `Frac` here.
-/

namespace Stonkwise

/-- One OHLCV bar (`open` is a Lean keyword, hence `open_`). -/
structure Bar where
  open_ : ℚ
  high : ℚ
  low : ℚ
  close : ℚ
  volume : ℚ
  deriving Repr, DecidableEq

instance : Inhabited Bar := ⟨⟨0, 0, 0, 0, 0⟩⟩

/-- `TrendType` enum from `market_structure.py`. -/
inductive TrendType where
  | UPTREND
  | DOWNTREND
  | RANGE
  | UNKNOWN
  deriving Repr, DecidableEq

/-- Arithmetic mean of a list of rationals (`np.mean`; 0 on empty input,
which the source never hits on an empty array here). -/
def listMean (l : List ℚ) : ℚ :=
  l.sum / l.length

/-- True-range list: for each bar `i ≥ 1`,
`max(high[i]-low[i], |high[i]-close[i-1]|, |low[i]-close[i-1]|)`
(the `tr1`/`tr2`/`tr3` arrays of `_calculate_atr`). -/
def trueRanges (data : List Bar) : List ℚ :=
  (data.zip data.tail).map fun pc =>
    max (max (pc.2.high - pc.2.low) |pc.2.high - pc.1.close|) |pc.2.low - pc.1.close|

/-- `tr[-period:]` of numpy: the last `period` entries, the whole list
when `period = 0` (since `tr[-0:] = tr[0:]`) or `period ≥ len`. -/
def lastSlice (period : ℕ) (l : List ℚ) : List ℚ :=
  if period = 0 then l else l.drop (l.length - period)

/-- `MarketStructureDetector._calculate_atr`: simple moving average of
true range over the last `period` bars, with the documented fallbacks
for degenerate input. -/
def calculate_atr (data : List Bar) (period : ℕ) : ℚ :=
  if data.length < 2 then
    1/10000
  else
    let close := data.map Bar.close
    let tr := trueRanges data
    if tr.length = 0 then
      let average_price := if 0 < close.length then listMean close else 1
      let calculated_atr := average_price * (1/1000)
      if 0 < calculated_atr then calculated_atr else 1/10000
    else
      let relevant_tr := lastSlice period tr
      if relevant_tr.length = 0 then
        let average_price := if 0 < close.length then listMean close else 1
        let calculated_atr := average_price * (1/1000)
        if 0 < calculated_atr then calculated_atr else 1/10000
      else
        let atr_value := listMean relevant_tr
        if 0 < atr_value then atr_value else 1/10000

/-- `PriceActionStrategy._calculate_position_size`: risk-budget size,
capped at 95% of what the available cash can buy. -/
def calculate_position_size (stop_loss_distance portfolio_value max_risk_per_trade
    available_cash current_price : ℚ) : ℚ :=
  if stop_loss_distance ≤ 0 then 0
  else
    let max_risk_amount := portfolio_value * max_risk_per_trade
    let position_size := max_risk_amount / stop_loss_distance
    let max_affordable_size := available_cash / current_price * (95/100)
    min position_size max_affordable_size

/-- `PriceActionStrategy.__init__`: `buffer_size = max(50, zone_retest_lookback + 10)`. -/
def buffer_size (zone_retest_lookback : ℕ) : ℕ :=
  max 50 (zone_retest_lookback + 10)

/-- `PriceActionStrategy._update_data_buffer`: append the current bar,
then `pop(0)` when the buffer exceeds its capacity. -/
def update_data_buffer (buf : List Bar) (bar : Bar) (cap : ℕ) : List Bar :=
  let appended := buf ++ [bar]
  if cap < appended.length then appended.drop 1 else appended

/-! ## Pattern detectors (`patterns.py`) -/

/-- `PatternDetector.detect_bullish_engulfing`. -/
def detect_bullish_engulfing (engulfing_threshold : ℚ) (data : List Bar) (index : ℕ) : Bool :=
  if index < 1 ∨ data.length ≤ index then false
  else
    let prev_candle := data.getD (index - 1) default
    let curr_candle := data.getD index default
    if prev_candle.open_ ≤ prev_candle.close then false
    else if curr_candle.close ≤ curr_candle.open_ then false
    else
      let prev_body_size := |prev_candle.open_ - prev_candle.close|
      let tolerance := prev_body_size * engulfing_threshold
      let engulfs_low := curr_candle.open_ ≤ prev_candle.close + tolerance
      let engulfs_high := prev_candle.open_ - tolerance ≤ curr_candle.close
      let curr_body_size := |curr_candle.close - curr_candle.open_|
      let is_larger := prev_body_size < curr_body_size
      decide (engulfs_low ∧ engulfs_high ∧ is_larger)

/-- `PatternDetector.detect_bearish_engulfing`. -/
def detect_bearish_engulfing (engulfing_threshold : ℚ) (data : List Bar) (index : ℕ) : Bool :=
  if index < 1 ∨ data.length ≤ index then false
  else
    let prev_candle := data.getD (index - 1) default
    let curr_candle := data.getD index default
    if prev_candle.close ≤ prev_candle.open_ then false
    else if curr_candle.open_ ≤ curr_candle.close then false
    else
      let prev_body_size := |prev_candle.open_ - prev_candle.close|
      let tolerance := prev_body_size * engulfing_threshold
      let engulfs_high := prev_candle.close - tolerance ≤ curr_candle.open_
      let engulfs_low := curr_candle.close ≤ prev_candle.open_ + tolerance
      let curr_body_size := |curr_candle.close - curr_candle.open_|
      let is_larger := prev_body_size < curr_body_size
      decide (engulfs_high ∧ engulfs_low ∧ is_larger)

/-- `PatternDetector.detect_hammer` (the body-proportion parameter is
rendered `min_body_size_frac`). -/
def detect_hammer (min_body_size_frac : ℚ) (data : List Bar) (index : ℕ) : Bool :=
  if data.length ≤ index then false
  else
    let candle := data.getD index default
    let body_size := |candle.close - candle.open_|
    let total_range := candle.high - candle.low
    let lower_wick := min candle.open_ candle.close - candle.low
    let upper_wick := candle.high - max candle.open_ candle.close
    if total_range = 0 then false
    else
      let bodyFrac := body_size / total_range
      let lowerWickFrac := lower_wick / total_range
      let upperWickFrac := upper_wick / total_range
      let maxBodyFracForSmallBody : ℚ := if 7/10 ≤ min_body_size_frac then 2/100 else 33/100
      let small_body := bodyFrac ≤ maxBodyFracForSmallBody
      let long_lower_wick := 2 * body_size ≤ lower_wick ∧ 1/2 ≤ lowerWickFrac
      let short_upper_wick := upperWickFrac ≤ 1/10
      decide (small_body ∧ long_lower_wick ∧ short_upper_wick)

/-- `PatternDetector.detect_shooting_star`. -/
def detect_shooting_star (min_body_size_frac : ℚ) (data : List Bar) (index : ℕ) : Bool :=
  if data.length ≤ index then false
  else
    let candle := data.getD index default
    let body_size := |candle.close - candle.open_|
    let total_range := candle.high - candle.low
    let lower_wick := min candle.open_ candle.close - candle.low
    let upper_wick := candle.high - max candle.open_ candle.close
    if total_range = 0 then false
    else
      let bodyFrac := body_size / total_range
      let lowerWickFrac := lower_wick / total_range
      let upperWickFrac := upper_wick / total_range
      let maxBodyFracForSmallBody : ℚ := if 7/10 ≤ min_body_size_frac then 2/100 else 33/100
      let small_body := bodyFrac ≤ maxBodyFracForSmallBody
      let long_upper_wick := 2 * body_size ≤ upper_wick ∧ 1/2 ≤ upperWickFrac
      let short_lower_wick := lowerWickFrac ≤ 1/10
      decide (small_body ∧ long_upper_wick ∧ short_lower_wick)

/-! ## Swing detection and trend analysis (`market_structure.py`) -/

/-- Maximum of a list (`np.max`; meaningful on nonempty input). -/
def listMax (l : List ℚ) : ℚ :=
  match l with
  | [] => 0
  | x :: xs => xs.foldl max x

/-- Minimum of a list (`np.min`; meaningful on nonempty input). -/
def listMin (l : List ℚ) : ℚ :=
  match l with
  | [] => 0
  | x :: xs => xs.foldl min x

/-- The window `prices[i-L .. i+L]` scanned by `_detect_swings`. -/
def swingWindow (prices : List ℚ) (L i : ℕ) : List ℚ :=
  (prices.drop (i - L)).take (2 * L + 1)

/-- The swing-high loop of `_detect_swings`: for each `i ∈ [L, n−L)`,
accept `highs[i]` when it is the window maximum and differs from the
last accepted swing high by at least `atr × multiplier` (`thresh`). -/
def swingHighsOf (highs : List ℚ) (L : ℕ) (thresh : ℚ) : List (ℕ × ℚ) :=
  (List.range highs.length).foldl
    (fun acc i =>
      if L ≤ i ∧ i + L < highs.length then
        if listMax (swingWindow highs L i) ≤ highs.getD i 0 then
          let is_significant_swing :=
            match acc.getLast? with
            | none => true
            | some last => decide (thresh ≤ |highs.getD i 0 - last.2|)
          if is_significant_swing then acc ++ [(i, highs.getD i 0)] else acc
        else acc
      else acc)
    []

/-- The swing-low loop of `_detect_swings`, mirror of `swingHighsOf`. -/
def swingLowsOf (lows : List ℚ) (L : ℕ) (thresh : ℚ) : List (ℕ × ℚ) :=
  (List.range lows.length).foldl
    (fun acc i =>
      if L ≤ i ∧ i + L < lows.length then
        if lows.getD i 0 ≤ listMin (swingWindow lows L i) then
          let is_significant_swing :=
            match acc.getLast? with
            | none => true
            | some last => decide (thresh ≤ |lows.getD i 0 - last.2|)
          if is_significant_swing then acc ++ [(i, lows.getD i 0)] else acc
        else acc
      else acc)
    []

/-- The ATR actually used for swing filtering: `_detect_swings` falls
back to `0.1% × mean(close)` (then to `0.0001`) when the computed ATR
is non-positive. -/
def swingAtr (data : List Bar) : ℚ :=
  let atr := calculate_atr data 14
  if atr ≤ 0 then
    let average_price := if 0 < data.length then listMean (data.map Bar.close) else 1
    let fallback := average_price * (1/1000)
    if fallback ≤ 0 then 1/10000 else fallback
  else atr

/-- `MarketStructureDetector._detect_swings`: returns the
`(swing_highs, swing_lows)` state after a detection pass; empty lists
when the series is shorter than `2·swing_lookback + 1`. -/
def detect_swings (data : List Bar) (swing_lookback : ℕ)
    (atr_swing_threshold_multiplier : ℚ) : List (ℕ × ℚ) × List (ℕ × ℚ) :=
  if data.length < 2 * swing_lookback + 1 then ([], [])
  else
    let thresh := swingAtr data * atr_swing_threshold_multiplier
    (swingHighsOf (data.map Bar.high) swing_lookback thresh,
     swingLowsOf (data.map Bar.low) swing_lookback thresh)

/-- Count of adjacent pairs of swing prices satisfying `r`. -/
def countAdjacent (l : List (ℕ × ℚ)) (r : ℚ → ℚ → Prop) [DecidableRel r] : ℕ :=
  (l.zip l.tail).countP fun p => decide (r p.1.2 p.2.2)

/-- `MarketStructureDetector._analyze_swings`: classify the trend from
the last three swings of each side against `trend_strength_threshold`. -/
def analyze_swings (swing_highs swing_lows : List (ℕ × ℚ))
    (trend_strength_threshold : ℚ) : TrendType :=
  if swing_highs.length < 2 ∨ swing_lows.length < 2 then TrendType.UNKNOWN
  else
    let recent_highs := swing_highs.drop (swing_highs.length - 3)
    let recent_lows := swing_lows.drop (swing_lows.length - 3)
    if recent_highs.length < 2 ∨ recent_lows.length < 2 then TrendType.UNKNOWN
    else
      let comparisons_high := recent_highs.length - 1
      let comparisons_low := recent_lows.length - 1
      let higher_highs_count := countAdjacent recent_highs (· < ·)
      let higher_lows_count := countAdjacent recent_lows (· < ·)
      let lower_highs_count := countAdjacent recent_highs (· > ·)
      let lower_lows_count := countAdjacent recent_lows (· > ·)
      let making_higher_highs :=
        if 0 < comparisons_high then
          trend_strength_threshold ≤ (higher_highs_count : ℚ) / (comparisons_high : ℚ)
        else False
      let making_higher_lows :=
        if 0 < comparisons_low then
          trend_strength_threshold ≤ (higher_lows_count : ℚ) / (comparisons_low : ℚ)
        else False
      let making_lower_highs :=
        if 0 < comparisons_high then
          trend_strength_threshold ≤ (lower_highs_count : ℚ) / (comparisons_high : ℚ)
        else False
      let making_lower_lows :=
        if 0 < comparisons_low then
          trend_strength_threshold ≤ (lower_lows_count : ℚ) / (comparisons_low : ℚ)
        else False
      let is_uptrend := making_higher_highs ∧ making_higher_lows
      let is_downtrend := making_lower_highs ∧ making_lower_lows
      if is_uptrend ∧ ¬is_downtrend then TrendType.UPTREND
      else if is_downtrend ∧ ¬is_uptrend then TrendType.DOWNTREND
      else if is_uptrend ∧ is_downtrend then TrendType.RANGE
      else TrendType.RANGE

/-- `MarketStructureDetector.detect_structure` /
module-level `detect_market_structure`: a full detection pass. -/
def detect_market_structure (data : List Bar) (swing_lookback : ℕ)
    (atr_swing_threshold_multiplier trend_strength_threshold : ℚ) : TrendType :=
  let swings := detect_swings data swing_lookback atr_swing_threshold_multiplier
  analyze_swings swings.1 swings.2 trend_strength_threshold

/-! ## Zone construction (`get_supply_demand_zones`) -/

/-- One supply/demand zone. -/
structure Zone where
  price : ℚ
  lower : ℚ
  upper : ℚ
  strength : ℚ
  deriving Repr, DecidableEq

/-- The zone-construction pass of
`MarketStructureDetector.get_supply_demand_zones`, given the detector
state (`current_trend`, `swing_highs`, `swing_lows`) and the ATR.
Returns `(supply, demand)`.  The loops are Python
`for i in range(1, min(k, len(swings)))` with `swings[-i]`. -/
def zonesFromState (current_trend : TrendType)
    (swing_highs swing_lows : List (ℕ × ℚ)) (atr : ℚ) : List Zone × List Zone :=
  match current_trend with
  | TrendType.UPTREND =>
      ([], ((List.range (min 3 swing_lows.length)).drop 1).map fun i =>
        let price := (swing_lows.getD (swing_lows.length - i) default).2
        ⟨price, price - atr, price + atr, 1 - ((i : ℚ) - 1) * (2/10)⟩)
  | TrendType.DOWNTREND =>
      (((List.range (min 3 swing_highs.length)).drop 1).map (fun i =>
        let price := (swing_highs.getD (swing_highs.length - i) default).2
        ⟨price, price - atr, price + atr, 1 - ((i : ℚ) - 1) * (2/10)⟩), [])
  | _ =>
      (((List.range (min 2 swing_highs.length)).drop 1).map (fun i =>
        let price := (swing_highs.getD (swing_highs.length - i) default).2
        ⟨price, price - atr * (1/2), price + atr * (1/2), 7/10 - ((i : ℚ) - 1) * (2/10)⟩),
       ((List.range (min 2 swing_lows.length)).drop 1).map fun i =>
        let price := (swing_lows.getD (swing_lows.length - i) default).2
        ⟨price, price - atr * (1/2), price + atr * (1/2), 7/10 - ((i : ℚ) - 1) * (2/10)⟩)

/-- Module-level `get_supply_demand_zones`: a fresh detector starts at
`UNKNOWN`, so `detect_structure` runs first, then zones are built from
the resulting state.  Returns `(supply, demand)`. -/
def get_supply_demand_zones (data : List Bar) (swing_lookback : ℕ)
    (atr_swing_threshold_multiplier trend_strength_threshold : ℚ) :
    List Zone × List Zone :=
  let swings := detect_swings data swing_lookback atr_swing_threshold_multiplier
  let trend := analyze_swings swings.1 swings.2 trend_strength_threshold
  zonesFromState trend swings.1 swings.2 (calculate_atr data 14)

/-! ## Configuration construction (`__init__` validation) -/

/-- The strategy parameters relevant to construction-time validation
(`PriceActionStrategy.params` defaults in parentheses). -/
structure StrategyParams where
  swing_lookback : ℕ := 5
  atr_swing_threshold_multiplier : ℚ := 1
  trend_strength_threshold : ℚ := 66/100
  engulfing_threshold : ℚ := 1/100
  risk_reward : ℚ := 2
  stop_loss_atr_mult : ℚ := 2
  max_risk_per_trade : ℚ := 2/100
  max_zones_to_track : ℕ := 3
  zone_strength_threshold : ℚ := 1/2
  atr_period : ℕ := 14
  max_concurrent_trades : ℕ := 2
  zone_retest_lookback : ℕ := 20

/-- `MarketStructureDetector.__init__`: raises `ValueError` unless
`0 < trend_strength_threshold ≤ 1`; no other argument is validated. -/
def mkMarketStructureDetector (swing_lookback : ℕ)
    (atr_swing_threshold_multiplier trend_strength_threshold : ℚ) :
    Except String (ℕ × ℚ × ℚ) :=
  if 0 < trend_strength_threshold ∧ trend_strength_threshold ≤ 1 then
    Except.ok (swing_lookback, atr_swing_threshold_multiplier, trend_strength_threshold)
  else
    Except.error "trend_strength_threshold must be between 0 exclusive and 1 inclusive"

/-- `PriceActionStrategy.__init__`: builds the market-structure
detector (the only construction-time validation) and the pattern
detector (no validation); sizing parameters are stored unchecked. -/
def initPriceActionStrategy (p : StrategyParams) : Except String (StrategyParams × ℕ) :=
  match mkMarketStructureDetector p.swing_lookback
      p.atr_swing_threshold_multiplier p.trend_strength_threshold with
  | Except.error e => Except.error e
  | Except.ok _ => Except.ok (p, buffer_size p.zone_retest_lookback)

/-! ## Concrete series used as witnesses and counterexamples -/

/-- A bar with `close = open` and the given high/low/close. -/
def mkBar (h l c : ℚ) : Bar := ⟨c, h, l, c, 0⟩

/-- Strictly increasing series (12 bars): high/low/close all rise by 1
per bar. -/
def monoUpSeries : List Bar :=
  [mkBar 101 99 100, mkBar 102 100 101, mkBar 103 101 102, mkBar 104 102 103,
   mkBar 105 103 104, mkBar 106 104 105, mkBar 107 105 106, mkBar 108 106 107,
   mkBar 109 107 108, mkBar 110 108 109, mkBar 111 109 110, mkBar 112 110 111]

/-- Strictly decreasing series (12 bars). -/
def monoDownSeries : List Bar :=
  [mkBar 112 110 111, mkBar 111 109 110, mkBar 110 108 109, mkBar 109 107 108,
   mkBar 108 106 107, mkBar 107 105 106, mkBar 106 104 105, mkBar 105 103 104,
   mkBar 104 102 103, mkBar 103 101 102, mkBar 102 100 101, mkBar 101 99 100]

/-- Rising zig-zag series: swing highs 20, 22, 24, 26 and swing lows
9, 10, 11 under `swing_lookback = 1`. -/
def upZigzagSeries : List Bar :=
  [mkBar 10 8 9, mkBar 20 18 19, mkBar 11 9 10, mkBar 22 20 21, mkBar 12 10 11,
   mkBar 24 22 23, mkBar 13 11 12, mkBar 26 24 25, mkBar 14 12 13]

/-- Falling zig-zag series: swing highs 26, 24, 22, 20 and swing lows
11, 10, 9 under `swing_lookback = 1`. -/
def downZigzagSeries : List Bar :=
  [mkBar 14 12 13, mkBar 26 24 25, mkBar 13 11 12, mkBar 24 22 23, mkBar 12 10 11,
   mkBar 22 20 21, mkBar 11 9 10, mkBar 20 18 19, mkBar 10 8 9]

/-- Oscillating series with no sustained bias: swing highs 32, 34, 33
and swing lows 10, 12, 11 under `swing_lookback = 1`. -/
def oscillatingSeries : List Bar :=
  [mkBar 30 20 25, mkBar 32 10 21, mkBar 30 20 25, mkBar 34 12 23, mkBar 30 20 25,
   mkBar 33 11 22, mkBar 30 20 25]

/-- Flat series of 11 identical bars (exactly `2·5 + 1`). -/
def flatSeries11 : List Bar :=
  List.replicate 11 (mkBar 1 1 1)

/-- The two-bar engulfing example from the specification. -/
def engulfingExample : List Bar :=
  [⟨1005/10, 101, 99, 995/10, 0⟩, ⟨99, 102, 985/10, 1015/10, 0⟩]

/-- A bar series whose close, high and low are all strictly increasing
bar over bar. -/
def strictlyIncreasingBars (data : List Bar) : Prop :=
  data.Chain' fun a b => a.high < b.high ∧ a.low < b.low ∧ a.close < b.close

/-- A bar series whose close, high and low are all strictly decreasing
bar over bar. -/
def strictlyDecreasingBars (data : List Bar) : Prop :=
  data.Chain' fun a b => b.high < a.high ∧ b.low < a.low ∧ b.close < a.close

/-- Python `swings[-k]`: the price of the `k`-th most recent swing. -/
def newestSwingPrice (swings : List (ℕ × ℚ)) (k : ℕ) : ℚ :=
  (swings.getD (swings.length - k) default).2

/-! ## Theorems -/

/-! ### Helper lemmas -/

/-- A fold whose step fixes `c` on every element returns `c`. -/
theorem foldl_fix {β γ : Type} (f : γ → β → γ) (c : γ) (l : List β)
    (h : ∀ b ∈ l, f c b = c) : l.foldl f c = c := by
  induction l with
  | nil => rfl
  | cons x xs ih =>
      rw [List.foldl_cons, h x (List.mem_cons_self x xs)]
      exact ih fun b hb => h b (List.mem_cons_of_mem x hb)

theorem le_foldl_max (xs : List ℚ) (a x : ℚ) (h : x ≤ a ∨ x ∈ xs) :
    x ≤ xs.foldl max a := by
  induction xs generalizing a with
  | nil => simpa using h
  | cons y ys ih =>
      rw [List.foldl_cons]
      refine ih (max a y) ?_
      rcases h with h | h
      · exact Or.inl (le_trans h (le_max_left a y))
      · rcases List.mem_cons.mp h with h | h
        · exact Or.inl (h ▸ le_max_right a y)
        · exact Or.inr h

theorem foldl_min_le (xs : List ℚ) (a x : ℚ) (h : a ≤ x ∨ x ∈ xs) :
    xs.foldl min a ≤ x := by
  induction xs generalizing a with
  | nil => simpa using h
  | cons y ys ih =>
      rw [List.foldl_cons]
      refine ih (min a y) ?_
      rcases h with h | h
      · exact Or.inl (le_trans (min_le_left a y) h)
      · rcases List.mem_cons.mp h with h | h
        · exact Or.inl (h ▸ min_le_right a y)
        · exact Or.inr h

theorem mem_le_listMax {l : List ℚ} {x : ℚ} (hx : x ∈ l) : x ≤ listMax l := by
  match l with
  | [] => cases hx
  | y :: ys =>
      rcases List.mem_cons.mp hx with h | h
      · exact le_foldl_max ys y x (Or.inl (le_of_eq h))
      · exact le_foldl_max ys y x (Or.inr h)

theorem listMin_le_mem {l : List ℚ} {x : ℚ} (hx : x ∈ l) : listMin l ≤ x := by
  match l with
  | [] => cases hx
  | y :: ys =>
      rcases List.mem_cons.mp hx with h | h
      · exact foldl_min_le ys y x (Or.inl (le_of_eq h.symm))
      · exact foldl_min_le ys y x (Or.inr h)

/-- Both window edges `prices[i−L]` and `prices[i+L]` lie in the
fractal window scanned at `i`. -/
theorem getD_edges_mem_swingWindow (prices : List ℚ) (L i : ℕ)
    (hiL : L ≤ i) (hub : i + L < prices.length) :
    prices.getD (i - L) 0 ∈ swingWindow prices L i ∧
      prices.getD (i + L) 0 ∈ swingWindow prices L i := by
  have hdl : (prices.drop (i - L)).length = prices.length - (i - L) := List.length_drop _ _
  have hwl : (swingWindow prices L i).length = 2 * L + 1 := by
    unfold swingWindow
    rw [List.length_take, hdl]
    omega
  constructor
  · have h0 : 0 < (swingWindow prices L i).length := by omega
    have he : (swingWindow prices L i)[0] = prices.getD (i - L) 0 := by
      unfold swingWindow
      rw [List.getElem_take, List.getElem_drop]
      rw [List.getD_eq_getElem prices 0 (by omega)]
      congr 1
    exact he ▸ List.getElem_mem h0
  · have h2L : 2 * L < (swingWindow prices L i).length := by omega
    have he : (swingWindow prices L i)[2 * L] = prices.getD (i + L) 0 := by
      unfold swingWindow
      rw [List.getElem_take, List.getElem_drop]
      rw [List.getD_eq_getElem prices 0 (by omega : i + L < prices.length)]
      congr 1
      omega
    exact he ▸ List.getElem_mem h2L

/-- `Pairwise (· > ·)` gives reversed ordering of `getD` values. -/
theorem pairwise_gt_getD {l : List ℚ} (h : List.Pairwise (fun a b => b < a) l) {i j : ℕ}
    (hij : i < j) (hj : j < l.length) : l.getD j 0 < l.getD i 0 := by
  rw [List.getD_eq_getElem l 0 (lt_trans hij hj), List.getD_eq_getElem l 0 hj]
  exact List.pairwise_iff_get.mp h ⟨i, lt_trans hij hj⟩ ⟨j, hj⟩ hij

/-- `Pairwise (· < ·)` gives strict ordering of `getD` values. -/
theorem pairwise_lt_getD {l : List ℚ} (h : l.Pairwise (· < ·)) {i j : ℕ}
    (hij : i < j) (hj : j < l.length) : l.getD i 0 < l.getD j 0 := by
  rw [List.getD_eq_getElem l 0 (lt_trans hij hj), List.getD_eq_getElem l 0 hj]
  exact List.pairwise_iff_get.mp h ⟨i, lt_trans hij hj⟩ ⟨j, hj⟩ hij

/-- If at every scanned index some window element strictly exceeds the
scanned high, no swing high is emitted. -/
theorem swingHighsOf_empty (highs : List ℚ) (L : ℕ) (thresh : ℚ)
    (h : ∀ i, L ≤ i → i + L < highs.length →
      ∃ x ∈ swingWindow highs L i, highs.getD i 0 < x) :
    swingHighsOf highs L thresh = [] := by
  unfold swingHighsOf
  apply foldl_fix
  intro i _
  by_cases hg : L ≤ i ∧ i + L < highs.length
  · rw [if_pos hg]
    obtain ⟨x, hxmem, hxgt⟩ := h i hg.1 hg.2
    have hmax : ¬ listMax (swingWindow highs L i) ≤ highs.getD i 0 := by
      have := mem_le_listMax hxmem
      intro hle
      linarith
    rw [if_neg hmax]
  · rw [if_neg hg]

/-- If at every scanned index some window element is strictly below
the scanned low, no swing low is emitted. -/
theorem swingLowsOf_empty (lows : List ℚ) (L : ℕ) (thresh : ℚ)
    (h : ∀ i, L ≤ i → i + L < lows.length →
      ∃ x ∈ swingWindow lows L i, x < lows.getD i 0) :
    swingLowsOf lows L thresh = [] := by
  unfold swingLowsOf
  apply foldl_fix
  intro i _
  by_cases hg : L ≤ i ∧ i + L < lows.length
  · rw [if_pos hg]
    obtain ⟨x, hxmem, hxlt⟩ := h i hg.1 hg.2
    have hmin : ¬ lows.getD i 0 ≤ listMin (swingWindow lows L i) := by
      have := listMin_le_mem hxmem
      intro hle
      linarith
    rw [if_neg hmin]
  · rw [if_neg hg]

/-- A strictly monotone (either direction) series has no fractal
swings, so a detection pass returns `UNKNOWN` (needs `L ≥ 1`). -/
theorem detect_unknown_of_strict_mono (data : List Bar) (L : ℕ) (mult t : ℚ)
    (hL : 1 ≤ L) (h : strictlyIncreasingBars data ∨ strictlyDecreasingBars data) :
    detect_market_structure data L mult t = TrendType.UNKNOWN := by
  simp only [detect_market_structure, detect_swings]
  by_cases hlen : data.length < 2 * L + 1
  · rw [if_pos hlen]
    simp [analyze_swings]
  · rw [if_neg hlen]
    have hhm : (data.map Bar.high).Pairwise (· < ·) ∨ (data.map Bar.high).Pairwise (· > ·) := by
      rcases h with h | h
      · exact Or.inl (List.chain'_iff_pairwise.mp
          ((List.chain'_map Bar.high).mpr (List.Chain'.imp (fun a b hab => hab.1) h)))
      · exact Or.inr (List.chain'_iff_pairwise.mp
          ((List.chain'_map Bar.high).mpr (List.Chain'.imp (fun a b hab => hab.1) h)))
    have hlm : (data.map Bar.low).Pairwise (· < ·) ∨ (data.map Bar.low).Pairwise (· > ·) := by
      rcases h with h | h
      · exact Or.inl (List.chain'_iff_pairwise.mp
          ((List.chain'_map Bar.low).mpr (List.Chain'.imp (fun a b hab => hab.2.1) h)))
      · exact Or.inr (List.chain'_iff_pairwise.mp
          ((List.chain'_map Bar.low).mpr (List.Chain'.imp (fun a b hab => hab.2.1) h)))
    have hhighs : swingHighsOf (data.map Bar.high)
        L (swingAtr data * mult) = [] := by
      apply swingHighsOf_empty
      intro i hiL hub
      have hmem := getD_edges_mem_swingWindow (data.map Bar.high) L i hiL hub
      rcases hhm with hm | hm
      · exact ⟨_, hmem.2, pairwise_lt_getD hm (by omega) hub⟩
      · exact ⟨_, hmem.1, pairwise_gt_getD hm (by omega) (by omega)⟩
    have hlows : swingLowsOf (data.map Bar.low)
        L (swingAtr data * mult) = [] := by
      apply swingLowsOf_empty
      intro i hiL hub
      have hmem := getD_edges_mem_swingWindow (data.map Bar.low) L i hiL hub
      rcases hlm with hm | hm
      · exact ⟨_, hmem.1, pairwise_lt_getD hm (by omega) (by omega)⟩
      · exact ⟨_, hmem.2, pairwise_gt_getD hm (by omega) hub⟩
    rw [hhighs, hlows]
    simp [analyze_swings]

/-- C1: for every bar window with at least one bar (including
degenerate flat-price data), `_calculate_atr` returns a value strictly
greater than 0 — never zero or negative. -/
theorem atr_always_pos (data : List Bar) (period : ℕ) (h : 0 < data.length) :
    0 < calculate_atr data period := by
  simp only [calculate_atr]
  split_ifs <;> first
    | assumption
    | norm_num

/-- C1 witness: the ATR of a degenerate flat 11-bar series is
positive. -/
theorem atr_always_pos_flat_witness :
    0 < flatSeries11.length ∧ 0 < calculate_atr flatSeries11 14 :=
  ⟨by decide, atr_always_pos flatSeries11 14 (by decide)⟩

/-- C2: position sizing returns 0 whenever the stop distance is
non-positive, and for a positive stop distance the returned size never
exceeds `0.95 × available_cash / current_price`. -/
theorem position_size_spec (stop_loss_distance portfolio_value max_risk_per_trade
    available_cash current_price : ℚ) (hp : 0 < current_price) :
    (stop_loss_distance ≤ 0 →
      calculate_position_size stop_loss_distance portfolio_value max_risk_per_trade
        available_cash current_price = 0) ∧
    (0 < stop_loss_distance →
      calculate_position_size stop_loss_distance portfolio_value max_risk_per_trade
        available_cash current_price ≤ (95/100) * (available_cash / current_price)) := by
  constructor
  · intro h
    unfold calculate_position_size
    rw [if_pos h]
  · intro h
    unfold calculate_position_size
    rw [if_neg (not_le.mpr h)]
    refine le_trans (min_le_right _ _) (le_of_eq ?_)
    ring

/-- C2 witness: concrete sizing instance: equity 10000, 2% risk, stop
distance 5, cash 1000, price 100 → size 40 is returned and respects
the 95%-of-cash cap (9.5). -/
theorem position_size_spec_witness :
    (0 : ℚ) < 100 ∧
      calculate_position_size 5 10000 (2/100) 1000 100 ≤ (95/100) * (1000 / 100) :=
  ⟨by norm_num, (position_size_spec 5 10000 (2/100) 1000 100 (by norm_num)).2 (by norm_num)⟩

/-- C9: the two-bar example from the specification is recognized as a bullish
engulfing at index 1 with the default `engulfing_threshold = 0.01`. -/
theorem bullish_engulfing_example : detect_bullish_engulfing (1/100) engulfingExample 1 = true := by
  norm_num [detect_bullish_engulfing, engulfingExample, List.getD, abs]

/-- C5 counterexample: a flat series of exactly `2·5 + 1 = 11` bars
(swing lookback 5) does yield swings — the guard is strict (`<`), so a
series of length exactly `2L+1` is processed and its middle bar is a
plateau swing high and swing low. -/
theorem swings_at_exact_window_counterexample :
    flatSeries11.length = 2 * 5 + 1 ∧
      detect_swings flatSeries11 5 1 ≠ ([], []) := by
  refine ⟨by decide, ?_⟩
  have h : detect_swings flatSeries11 5 1 = ([(5, 1)], [(5, 1)]) := by
    norm_num [detect_swings, swingAtr, calculate_atr, flatSeries11, mkBar, trueRanges,
      lastSlice, listMean, listMax, listMin, swingWindow, swingHighsOf, swingLowsOf,
      List.replicate, List.range_succ, List.getD, List.getLast?, abs, max_def, min_def]
  rw [h]
  simp

/-- C5 amended: for every bar series strictly shorter than `2L+1`
bars and every ATR multiplier, swing detection returns empty
swing-high and swing-low lists. -/
theorem swings_empty_below_window (data : List Bar) (swing_lookback : ℕ)
    (atr_swing_threshold_multiplier : ℚ)
    (h : data.length < 2 * swing_lookback + 1) :
    detect_swings data swing_lookback atr_swing_threshold_multiplier = ([], []) := by
  unfold detect_swings
  rw [if_pos h]

/-- C5 witness: a flat series of 10 bars with lookback 5 yields no
swings. -/
theorem swings_empty_below_window_witness :
    (List.replicate 10 (mkBar 1 1 1)).length < 2 * 5 + 1 ∧
      detect_swings (List.replicate 10 (mkBar 1 1 1)) 5 1 = ([], []) :=
  ⟨by decide, swings_empty_below_window _ 5 1 (by decide)⟩

/-- C6: the rolling bar buffer never exceeds
`max(50, zone_retest_lookback + 10)`: one per-bar update keeps the
length within capacity, appends the new bar when below capacity, and
at capacity evicts exactly the oldest bar, preserving the rest in
order. -/
theorem buffer_bounded (zone_retest_lookback : ℕ) (buf : List Bar) (bar : Bar)
    (h : buf.length ≤ buffer_size zone_retest_lookback) :
    (update_data_buffer buf bar (buffer_size zone_retest_lookback)).length ≤
        buffer_size zone_retest_lookback ∧
      (buf.length < buffer_size zone_retest_lookback →
        update_data_buffer buf bar (buffer_size zone_retest_lookback) = buf ++ [bar]) ∧
      (buf.length = buffer_size zone_retest_lookback →
        update_data_buffer buf bar (buffer_size zone_retest_lookback) =
          List.drop 1 buf ++ [bar]) := by
  have hcappos : 1 ≤ buffer_size zone_retest_lookback :=
    le_trans (by norm_num) (le_max_left 50 (zone_retest_lookback + 10))
  simp only [update_data_buffer]
  rcases lt_or_eq_of_le h with hlt | heq
  · have hnot : ¬ buffer_size zone_retest_lookback < (buf ++ [bar]).length := by
      rw [List.length_append]
      simp only [List.length_singleton]
      omega
    rw [if_neg hnot]
    refine ⟨?_, fun _ => rfl, fun he => absurd he (ne_of_lt hlt)⟩
    rw [List.length_append]
    simp only [List.length_singleton]
    omega
  · have hyes : buffer_size zone_retest_lookback < (buf ++ [bar]).length := by
      rw [List.length_append]
      simp only [List.length_singleton]
      omega
    rw [if_pos hyes]
    refine ⟨?_, fun hlt => absurd heq (ne_of_lt hlt), fun _ => ?_⟩
    · rw [List.length_drop, List.length_append]
      simp only [List.length_singleton]
      omega
    · rw [List.drop_append_of_le_length (by omega)]

/-- C6 witness: a full 50-bar buffer (default `zone_retest_lookback =
20`, capacity `max(50, 30) = 50`) stays at 50 bars after an update. -/
theorem buffer_bounded_witness :
    (List.replicate 50 (mkBar 1 1 1)).length ≤ buffer_size 20 ∧
      (update_data_buffer (List.replicate 50 (mkBar 1 1 1)) (mkBar 2 1 2)
          (buffer_size 20)).length ≤ buffer_size 20 :=
  ⟨by decide, (buffer_bounded 20 (List.replicate 50 (mkBar 1 1 1)) (mkBar 2 1 2)
      (by decide)).1⟩

/-- C7: a zero-range candle (`open = high = low = close`) never
matches hammer, shooting star, or either engulfing pattern at its own
index, whatever the rest of the series: the body/range divisions are
guarded and the zero-range branch returns false. -/
theorem zero_range_candle_never_matches (min_body_size_frac engulfing_threshold : ℚ)
    (data : List Bar) (index : ℕ)
    (h1 : (data.getD index default).open_ = (data.getD index default).high)
    (h2 : (data.getD index default).high = (data.getD index default).low)
    (h3 : (data.getD index default).low = (data.getD index default).close) :
    detect_hammer min_body_size_frac data index = false ∧
      detect_shooting_star min_body_size_frac data index = false ∧
      detect_bullish_engulfing engulfing_threshold data index = false ∧
      detect_bearish_engulfing engulfing_threshold data index = false := by
  have hrange : (data.getD index default).high - (data.getD index default).low = 0 := by
    rw [h2]; ring
  have hopeq : (data.getD index default).open_ = (data.getD index default).close :=
    h1.trans (h2.trans h3)
  have hco : (data.getD index default).close ≤ (data.getD index default).open_ :=
    le_of_eq hopeq.symm
  have hoc : (data.getD index default).open_ ≤ (data.getD index default).close :=
    le_of_eq hopeq
  refine ⟨?_, ?_, ?_, ?_⟩
  · simp only [detect_hammer]
    split_ifs <;> rfl
  · simp only [detect_shooting_star]
    split_ifs <;> rfl
  · simp only [detect_bullish_engulfing]
    split_ifs <;> rfl
  · simp only [detect_bearish_engulfing]
    split_ifs <;> rfl

/-- C7 witness: the second bar of a concrete two-bar series is a
zero-range candle and matches none of the four patterns. -/
theorem zero_range_candle_never_matches_witness :
    ([mkBar 10 8 9, ⟨5, 5, 5, 5, 0⟩].getD 1 default).open_ = 5 ∧
      detect_hammer (6/10) [mkBar 10 8 9, ⟨5, 5, 5, 5, 0⟩] 1 = false ∧
      detect_shooting_star (6/10) [mkBar 10 8 9, ⟨5, 5, 5, 5, 0⟩] 1 = false ∧
      detect_bullish_engulfing (1/100) [mkBar 10 8 9, ⟨5, 5, 5, 5, 0⟩] 1 = false ∧
      detect_bearish_engulfing (1/100) [mkBar 10 8 9, ⟨5, 5, 5, 5, 0⟩] 1 = false :=
  ⟨rfl,
    (zero_range_candle_never_matches (6/10) (1/100) [mkBar 10 8 9, ⟨5, 5, 5, 5, 0⟩]
      1 rfl rfl rfl).1,
    (zero_range_candle_never_matches (6/10) (1/100) [mkBar 10 8 9, ⟨5, 5, 5, 5, 0⟩]
      1 rfl rfl rfl).2.1,
    (zero_range_candle_never_matches (6/10) (1/100) [mkBar 10 8 9, ⟨5, 5, 5, 5, 0⟩]
      1 rfl rfl rfl).2.2.1,
    (zero_range_candle_never_matches (6/10) (1/100) [mkBar 10 8 9, ⟨5, 5, 5, 5, 0⟩]
      1 rfl rfl rfl).2.2.2⟩

/-- C10: bullish and bearish engulfing are mutually exclusive at every
index of every series: the bullish form requires the previous candle
to close strictly below its open, the bearish form strictly above. -/
theorem engulfing_mutually_exclusive (engulfing_threshold : ℚ) (data : List Bar)
    (index : ℕ) :
    (detect_bullish_engulfing engulfing_threshold data index &&
      detect_bearish_engulfing engulfing_threshold data index) = false := by
  simp only [detect_bullish_engulfing, detect_bearish_engulfing]
  by_cases hA : (data.getD (index - 1) default).open_ ≤ (data.getD (index - 1) default).close
  · split_ifs <;> simp
  · have hA' : (data.getD (index - 1) default).close ≤ (data.getD (index - 1) default).open_ :=
      le_of_not_le hA
    split_ifs <;> simp

/-- C8 counterexample: a configuration with a negative
`max_risk_per_trade` (and a negative `stop_loss_atr_mult`) is accepted
at construction time — negative sizing parameters are not validated. -/
theorem negative_sizing_accepted :
    (initPriceActionStrategy
        { max_risk_per_trade := -(1/50), stop_loss_atr_mult := -2 }).isOk = true := by
  have h : (0 : ℚ) < 66/100 ∧ (66/100 : ℚ) ≤ 1 := by norm_num
  simp [initPriceActionStrategy, mkMarketStructureDetector, h, Except.isOk, Except.toBool]

/-- C8 amended: construction validates exactly
`trend_strength_threshold`: it fails fast (before any bar is
processed) iff the threshold is outside `(0, 1]`, and succeeds for any
threshold inside `(0, 1]` regardless of the sizing parameters. -/
theorem config_validation (p : StrategyParams) :
    (¬(0 < p.trend_strength_threshold ∧ p.trend_strength_threshold ≤ 1) →
      initPriceActionStrategy p =
        Except.error "trend_strength_threshold must be between 0 exclusive and 1 inclusive") ∧
      ((0 < p.trend_strength_threshold ∧ p.trend_strength_threshold ≤ 1) →
        initPriceActionStrategy p = Except.ok (p, buffer_size p.zone_retest_lookback)) := by
  simp only [initPriceActionStrategy, mkMarketStructureDetector]
  constructor
  · intro h
    rw [if_neg h]
  · intro h
    rw [if_pos h]

/-- C8 witness: an out-of-range threshold (2) is rejected at
construction, while the defaults are accepted. -/
theorem config_validation_witness :
    initPriceActionStrategy { trend_strength_threshold := 2 } =
        Except.error "trend_strength_threshold must be between 0 exclusive and 1 inclusive" ∧
      initPriceActionStrategy {} = Except.ok ({}, buffer_size 20) :=
  ⟨(config_validation { trend_strength_threshold := 2 }).1 (by norm_num),
    (config_validation {}).2 (by norm_num)⟩

/-! ### Concrete detection-pass evaluations (helper lemmas) -/

theorem monoUp_increasing : strictlyIncreasingBars monoUpSeries := by
  norm_num [strictlyIncreasingBars, monoUpSeries, mkBar, List.chain'_cons]

theorem monoDown_decreasing : strictlyDecreasingBars monoDownSeries := by
  norm_num [strictlyDecreasingBars, monoDownSeries, mkBar, List.chain'_cons]

theorem upZig_swings : detect_swings upZigzagSeries 1 (1/100) =
    ([(1, 20), (3, 22), (5, 24), (7, 26)], [(2, 9), (4, 10), (6, 11)]) := by
  norm_num [detect_swings, swingAtr, calculate_atr, upZigzagSeries, mkBar, trueRanges,
    lastSlice, listMean, listMax, listMin, swingWindow, swingHighsOf, swingLowsOf,
    List.range_succ, List.getD, List.getLast?, abs, max_def, min_def]

theorem upZig_analyze :
    analyze_swings [(1, 20), (3, 22), (5, 24), (7, 26)] [(2, 9), (4, 10), (6, 11)]
      (33/50) = TrendType.UPTREND := by
  norm_num [analyze_swings, countAdjacent, List.countP_cons, List.countP_nil]

theorem upZig_trend :
    detect_market_structure upZigzagSeries 1 (1/100) (33/50) = TrendType.UPTREND := by
  simp only [detect_market_structure, upZig_swings]
  exact upZig_analyze

theorem downZig_trend :
    detect_market_structure downZigzagSeries 1 (1/100) (33/50) = TrendType.DOWNTREND := by
  have hsw : detect_swings downZigzagSeries 1 (1/100) =
      ([(1, 26), (3, 24), (5, 22), (7, 20)], [(2, 11), (4, 10), (6, 9)]) := by
    norm_num [detect_swings, swingAtr, calculate_atr, downZigzagSeries, mkBar, trueRanges,
      lastSlice, listMean, listMax, listMin, swingWindow, swingHighsOf, swingLowsOf,
      List.range_succ, List.getD, List.getLast?, abs, max_def, min_def]
  simp only [detect_market_structure, hsw]
  norm_num [analyze_swings, countAdjacent, List.countP_cons, List.countP_nil]

theorem osc_trend :
    detect_market_structure oscillatingSeries 1 (1/100) (33/50) = TrendType.RANGE := by
  have hsw : detect_swings oscillatingSeries 1 (1/100) =
      ([(1, 32), (3, 34), (5, 33)], [(1, 10), (3, 12), (5, 11)]) := by
    norm_num [detect_swings, swingAtr, calculate_atr, oscillatingSeries, mkBar, trueRanges,
      lastSlice, listMean, listMax, listMin, swingWindow, swingHighsOf, swingLowsOf,
      List.range_succ, List.getD, List.getLast?, abs, max_def, min_def]
  simp only [detect_market_structure, hsw]
  norm_num [analyze_swings, countAdjacent, List.countP_cons, List.countP_nil]

/-! ### Trend classification (C3) -/

/-- C3 counterexample: the strictly increasing 12-bar series
`monoUpSeries` (close/high/low all rising by 1 per bar, far more than
needed relative to ATR) is classified `UNKNOWN`, not `UPTREND`: a
strictly monotone series has no fractal swing points at all. -/
theorem monotone_series_counterexample :
    strictlyIncreasingBars monoUpSeries ∧
      detect_market_structure monoUpSeries 5 1 (33/50) ≠ TrendType.UPTREND ∧
      detect_market_structure monoUpSeries 5 1 (33/50) = TrendType.UNKNOWN := by
  have hu := detect_unknown_of_strict_mono monoUpSeries 5 1 (33/50) (by norm_num)
    (Or.inl monoUp_increasing)
  refine ⟨monoUp_increasing, ?_, hu⟩
  rw [hu]
  simp

/-- C3 amended: a strictly monotone (increasing or decreasing)
close/high/low series yields no swings, hence `UNKNOWN`; trends are
detected on series that rise or fall through swing points: a rising
zig-zag yields `UPTREND`, a falling zig-zag `DOWNTREND`, and an
oscillating series with no sustained directional bias `RANGE` (shown
with lookback 1, ATR multiplier 0.01, threshold 0.66 — the repository
test settings and default threshold). -/
theorem trend_classification :
    (∀ (data : List Bar) (L : ℕ) (mult t : ℚ), 1 ≤ L → strictlyIncreasingBars data →
        detect_market_structure data L mult t = TrendType.UNKNOWN) ∧
      (∀ (data : List Bar) (L : ℕ) (mult t : ℚ), 1 ≤ L → strictlyDecreasingBars data →
        detect_market_structure data L mult t = TrendType.UNKNOWN) ∧
      detect_market_structure upZigzagSeries 1 (1/100) (33/50) = TrendType.UPTREND ∧
      detect_market_structure downZigzagSeries 1 (1/100) (33/50) = TrendType.DOWNTREND ∧
      detect_market_structure oscillatingSeries 1 (1/100) (33/50) = TrendType.RANGE :=
  ⟨fun data L mult t hL h => detect_unknown_of_strict_mono data L mult t hL (Or.inl h),
   fun data L mult t hL h => detect_unknown_of_strict_mono data L mult t hL (Or.inr h),
   upZig_trend, downZig_trend, osc_trend⟩

/-- C3 witness: the universal parts of `trend_classification` applied
to the concrete monotone series with lookback 5. -/
theorem trend_classification_witness :
    detect_market_structure monoUpSeries 5 1 (33/50) = TrendType.UNKNOWN ∧
      detect_market_structure monoDownSeries 5 1 (33/50) = TrendType.UNKNOWN :=
  ⟨trend_classification.1 monoUpSeries 5 1 (33/50) (by norm_num) monoUp_increasing,
   trend_classification.2.1 monoDownSeries 5 1 (33/50) (by norm_num) monoDown_decreasing⟩

/-! ### Zone construction (C4) -/

/-- C4 counterexample: on the rising zig-zag series the trend is
`UPTREND` and there are 3 swing lows, yet only 2 demand zones are
produced (the loop `for i in range(1, min(3, len))` runs over
`i ∈ {1, 2}`), not 3 as claimed. -/
theorem zone_count_counterexample :
    detect_market_structure upZigzagSeries 1 (1/100) (33/50) = TrendType.UPTREND ∧
      3 ≤ (detect_swings upZigzagSeries 1 (1/100)).2.length ∧
      (get_supply_demand_zones upZigzagSeries 1 (1/100) (33/50)).2.length = 2 := by
  refine ⟨upZig_trend, ?_, ?_⟩
  · rw [upZig_swings]
    norm_num
  · simp only [get_supply_demand_zones, upZig_swings, upZig_analyze]
    norm_num [zonesFromState, List.range_succ]

/-- C4 amended: one zone-construction pass emits at most
`min(3, len) − 1 ≤ 2` zones on the relevant side in a trend and
`min(2, len) − 1 ≤ 1` per side in a range; with at least 3 swings on
the relevant side a trend yields exactly 2 zones (newest first, band
`price ± ATR`, strength `1 − 0.2×age_rank` with age rank 0 the most
recent), and with at least 2 swings per side a range yields exactly 1
zone per side (band `price ± 0.5×ATR`, strength `0.7`). -/
theorem zone_construction (swing_highs swing_lows : List (ℕ × ℚ)) (atr : ℚ) :
    ((zonesFromState TrendType.UPTREND swing_highs swing_lows atr).2.length =
        min 3 swing_lows.length - 1 ∧
      (zonesFromState TrendType.UPTREND swing_highs swing_lows atr).1 = []) ∧
      ((zonesFromState TrendType.DOWNTREND swing_highs swing_lows atr).1.length =
          min 3 swing_highs.length - 1 ∧
        (zonesFromState TrendType.DOWNTREND swing_highs swing_lows atr).2 = []) ∧
      ((zonesFromState TrendType.RANGE swing_highs swing_lows atr).1.length =
          min 2 swing_highs.length - 1 ∧
        (zonesFromState TrendType.RANGE swing_highs swing_lows atr).2.length =
          min 2 swing_lows.length - 1) ∧
      (3 ≤ swing_lows.length →
        zonesFromState TrendType.UPTREND swing_highs swing_lows atr =
          ([], [⟨newestSwingPrice swing_lows 1, newestSwingPrice swing_lows 1 - atr,
                 newestSwingPrice swing_lows 1 + atr, 1⟩,
                ⟨newestSwingPrice swing_lows 2, newestSwingPrice swing_lows 2 - atr,
                 newestSwingPrice swing_lows 2 + atr, 8/10⟩])) ∧
      (3 ≤ swing_highs.length →
        zonesFromState TrendType.DOWNTREND swing_highs swing_lows atr =
          ([⟨newestSwingPrice swing_highs 1, newestSwingPrice swing_highs 1 - atr,
              newestSwingPrice swing_highs 1 + atr, 1⟩,
            ⟨newestSwingPrice swing_highs 2, newestSwingPrice swing_highs 2 - atr,
              newestSwingPrice swing_highs 2 + atr, 8/10⟩], [])) ∧
      (2 ≤ swing_highs.length → 2 ≤ swing_lows.length →
        zonesFromState TrendType.RANGE swing_highs swing_lows atr =
          ([⟨newestSwingPrice swing_highs 1, newestSwingPrice swing_highs 1 - atr * (1/2),
              newestSwingPrice swing_highs 1 + atr * (1/2), 7/10⟩],
           [⟨newestSwingPrice swing_lows 1, newestSwingPrice swing_lows 1 - atr * (1/2),
              newestSwingPrice swing_lows 1 + atr * (1/2), 7/10⟩])) := by
  refine ⟨⟨?_, rfl⟩, ⟨?_, rfl⟩, ⟨?_, ?_⟩, ?_, ?_, ?_⟩
  · simp [zonesFromState]
  · simp [zonesFromState]
  · simp [zonesFromState]
  · simp [zonesFromState]
  · intro h
    have hmin : min 3 swing_lows.length = 3 := Nat.min_eq_left h
    norm_num [zonesFromState, hmin, List.range_succ, newestSwingPrice]
  · intro h
    have hmin : min 3 swing_highs.length = 3 := Nat.min_eq_left h
    norm_num [zonesFromState, hmin, List.range_succ, newestSwingPrice]
  · intro hh hl
    have hminh : min 2 swing_highs.length = 2 := Nat.min_eq_left hh
    have hminl : min 2 swing_lows.length = 2 := Nat.min_eq_left hl
    norm_num [zonesFromState, hminh, hminl, List.range_succ, newestSwingPrice]

/-- C4 witness: `zone_construction` applied to a concrete state with 3
swing lows: exactly two demand zones, newest first, with strengths 1
and 0.8. -/
theorem zone_construction_witness :
    3 ≤ ([(0, 1), (1, 2), (2, 3)] : List (ℕ × ℚ)).length ∧
      zonesFromState TrendType.UPTREND [] [(0, 1), (1, 2), (2, 3)] 1 =
        ([], [⟨3, 2, 4, 1⟩, ⟨2, 1, 3, 8/10⟩]) := by
  refine ⟨by norm_num, ?_⟩
  have h := (zone_construction [] [(0, 1), (1, 2), (2, 3)] 1).2.2.2.1 (by norm_num)
  rw [h]
  norm_num [newestSwingPrice, List.getD]

end Stonkwise
